import Mathlib

/-!
Shallow embedding of the inventory-management backend: the Product schema
(`src/models/Product.js`) and the request handlers of the product controller
(create, update, increase/decrease stock, low-stock query).  JS numbers are
modelled as rationals so that non-integer amounts are representable; the
document store is a list of products keyed by `id`, and Mongoose's save /
findByIdAndUpdate validation is modelled explicitly.
-/

namespace Inventory

/-- Leading- and trailing-whitespace removal on the character list of a
string: the `trim: true` setter the schema declares for its string paths. -/
def jsTrim (s : String) : String :=
  ⟨((s.data.dropWhile Char.isWhitespace).reverse.dropWhile Char.isWhitespace).reverse⟩

/-- A stored Product document.  `description` is `none` when the field is
absent (the schema declares no default for it).  `stock_quantity` and
`low_stock_threshold` are JS numbers, modelled as rationals. -/
structure Product where
  id : Nat
  name : String
  description : Option String
  stock_quantity : ℚ
  low_stock_threshold : ℚ
deriving Repr, DecidableEq

/-- Schema-level validation run by Mongoose on `save`, in schema path order:
`name` required (stored trimmed, so empty-after-trim fails), `stock_quantity`
min 0 and integer, `low_stock_threshold` min 0 and integer. -/
def validateProduct (p : Product) : Option String :=
  if p.name = "" then some "Product name is required"
  else if p.stock_quantity < 0 then some "Stock quantity cannot be negative"
  else if p.stock_quantity.isInt = false then some "Stock quantity must be an integer"
  else if p.low_stock_threshold < 0 then some "Low stock threshold cannot be negative"
  else if p.low_stock_threshold.isInt = false then some "Low stock threshold must be an integer"
  else none

/-- The request's `:id` path parameter: either it casts to a store id, or it
is malformed (Mongoose raises `CastError`, mapped to 400 by the handlers). -/
inductive IdInput where
  | valid (pid : Nat)
  | malformed
deriving Repr, DecidableEq

/-- The store: a list of Product documents. -/
abbrev Store := List Product

/-- `Product.findById`: first document whose `_id` matches. -/
def findById (store : Store) (pid : Nat) : Option Product :=
  store.find? (fun p => p.id == pid)

/-- `product.save()` on an existing document / the write half of
`findByIdAndUpdate`: replace the document with that `_id`. -/
def saveToStore (store : Store) (p : Product) : Store :=
  store.map (fun q => if q.id == p.id then p else q)

/-- Outcome of a handler: an HTTP status with either a product body or an
`{error: msg}` body. -/
inductive HandlerResult where
  | ok (status : Nat) (product : Product)
  | err (status : Nat) (msg : String)
deriving Repr, DecidableEq

/-- Request body for `createProduct`; `none` models an absent field. -/
structure CreateBody where
  name : Option String
  description : Option String
  stock_quantity : Option ℚ
  low_stock_threshold : Option ℚ
deriving Repr, DecidableEq

/-- JS falsiness of the `name` field in the create handler (`!name`):
absent or the empty string. -/
def nameFalsy : Option String → Bool
  | none => true
  | some s => s == ""

/-- The `createProduct` handler: reject a falsy `name`, build the document
with schema defaults (`stock_quantity` 0, `low_stock_threshold` 10, string
fields trimmed), then `save` runs the schema validators; a validation
failure is a 400 with the validator's message. -/
def createProduct (store : Store) (body : CreateBody) (newId : Nat) :
    HandlerResult × Store :=
  if nameFalsy body.name then (.err 400 "Product name is required", store)
  else
    let p : Product :=
      { id := newId
        name := jsTrim (body.name.getD "")
        description := body.description.map jsTrim
        stock_quantity := body.stock_quantity.getD 0
        low_stock_threshold := body.low_stock_threshold.getD 10 }
    match validateProduct p with
    | some msg => (.err 400 msg, store)
    | none => (.ok 201 p, store ++ [p])

/-- Request body for the general `updateProduct` handler. -/
structure UpdateBody where
  name : Option String
  description : Option String
  stock_quantity : Option ℚ
  low_stock_threshold : Option ℚ
deriving Repr, DecidableEq

/-- The update validators that `runValidators: true` applies to the supplied
paths only, in schema path order. -/
def validateUpdateFields (b : UpdateBody) : Option String :=
  if b.name.any (fun n => jsTrim n == "") then some "Product name is required"
  else if b.stock_quantity.any (fun q => decide (q < 0)) then
    some "Stock quantity cannot be negative"
  else if b.stock_quantity.any (fun q => q.isInt = false) then
    some "Stock quantity must be an integer"
  else if b.low_stock_threshold.any (fun q => decide (q < 0)) then
    some "Low stock threshold cannot be negative"
  else if b.low_stock_threshold.any (fun q => q.isInt = false) then
    some "Low stock threshold must be an integer"
  else none

/-- Field replacement performed by `findByIdAndUpdate`: keys whose value is
`undefined` are stripped, so only supplied fields change. -/
def applyUpdate (p : Product) (b : UpdateBody) : Product :=
  { p with
    name := (b.name.map jsTrim).getD p.name
    description :=
      match b.description with
      | some d => some (jsTrim d)
      | none => p.description
    stock_quantity := b.stock_quantity.getD p.stock_quantity
    low_stock_threshold := b.low_stock_threshold.getD p.low_stock_threshold }

/-- The `updateProduct` handler: explicit negativity pre-checks, then
`findByIdAndUpdate` with `runValidators` (id cast, update validators,
lookup, field replacement). -/
def updateProduct (store : Store) (id : IdInput) (b : UpdateBody) :
    HandlerResult × Store :=
  if b.stock_quantity.any (fun q => decide (q < 0)) then
    (.err 400 "Stock quantity cannot be negative", store)
  else if b.low_stock_threshold.any (fun q => decide (q < 0)) then
    (.err 400 "Low stock threshold cannot be negative", store)
  else
    match id with
    | .malformed => (.err 400 "Invalid product ID", store)
    | .valid pid =>
      match validateUpdateFields b with
      | some msg => (.err 400 msg, store)
      | none =>
        match findById store pid with
        | none => (.err 404 "Product not found", store)
        | some p =>
          let p1 := applyUpdate p b
          (.ok 200 p1, saveToStore store p1)

/-- The `increaseStock` handler: amount validation (`!amount || amount <= 0`
then `Number.isInteger`), id cast, lookup, `stock_quantity += amount`, save
(whose validation failure would be an uncaught 500). -/
def increaseStock (store : Store) (id : IdInput) (amount : Option ℚ) :
    HandlerResult × Store :=
  match amount with
  | none => (.err 400 "Amount must be a positive number", store)
  | some a =>
    if a ≤ 0 then (.err 400 "Amount must be a positive number", store)
    else if a.isInt = false then (.err 400 "Amount must be an integer", store)
    else
      match id with
      | .malformed => (.err 400 "Invalid product ID", store)
      | .valid pid =>
        match findById store pid with
        | none => (.err 404 "Product not found", store)
        | some p =>
          let p1 := { p with stock_quantity := p.stock_quantity + a }
          match validateProduct p1 with
          | some _ => (.err 500 "Server error while increasing stock", store)
          | none => (.ok 200 p1, saveToStore store p1)

/-- The `decreaseStock` handler: same amount validation, then the floor
check `stock_quantity - amount < 0` before any mutation. -/
def decreaseStock (store : Store) (id : IdInput) (amount : Option ℚ) :
    HandlerResult × Store :=
  match amount with
  | none => (.err 400 "Amount must be a positive number", store)
  | some a =>
    if a ≤ 0 then (.err 400 "Amount must be a positive number", store)
    else if a.isInt = false then (.err 400 "Amount must be an integer", store)
    else
      match id with
      | .malformed => (.err 400 "Invalid product ID", store)
      | .valid pid =>
        match findById store pid with
        | none => (.err 404 "Product not found", store)
        | some p =>
          if p.stock_quantity - a < 0 then (.err 400 "Insufficient stock", store)
          else
            let p1 := { p with stock_quantity := p.stock_quantity - a }
            match validateProduct p1 with
            | some _ => (.err 500 "Server error while decreasing stock", store)
            | none => (.ok 200 p1, saveToStore store p1)

/-- The `getLowStockProducts` handler: a `$lt` filter on
`stock_quantity < low_stock_threshold`, always a 200. -/
def getLowStockProducts (store : Store) : Nat × List Product :=
  (200, store.filter (fun p => decide (p.stock_quantity < p.low_stock_threshold)))

/-- Every stored product has non-negative stock. -/
def storeNonneg (store : Store) : Prop :=
  ∀ p ∈ store, 0 ≤ p.stock_quantity

/-- The rational one half, built without normalization so that it is
kernel-computable: a JS number that `Number.isInteger` rejects. -/
def oneHalf : ℚ := ⟨1, 2, by decide, Nat.coprime_one_left 2⟩

/-! ### Helper lemmas -/

theorem isInt_iff_den (q : ℚ) : q.isInt = true ↔ q.den = 1 := by
  simp [Rat.isInt]

theorem isInt_add_of {a b : ℚ} (ha : a.isInt = true) (hb : b.isInt = true) :
    (a + b).isInt = true := by
  rw [isInt_iff_den] at ha hb ⊢
  obtain ⟨m, hm⟩ : ∃ m : ℤ, a = m := ⟨a.num, ((Rat.den_eq_one_iff a).mp ha).symm⟩
  obtain ⟨n, hn⟩ : ∃ n : ℤ, b = n := ⟨b.num, ((Rat.den_eq_one_iff b).mp hb).symm⟩
  subst hm hn
  rw [← Int.cast_add]
  exact Rat.den_intCast _

theorem isInt_sub_of {a b : ℚ} (ha : a.isInt = true) (hb : b.isInt = true) :
    (a - b).isInt = true := by
  rw [isInt_iff_den] at ha hb ⊢
  obtain ⟨m, hm⟩ : ∃ m : ℤ, a = m := ⟨a.num, ((Rat.den_eq_one_iff a).mp ha).symm⟩
  obtain ⟨n, hn⟩ : ∃ n : ℤ, b = n := ⟨b.num, ((Rat.den_eq_one_iff b).mp hb).symm⟩
  subst hm hn
  rw [← Int.cast_sub]
  exact Rat.den_intCast _

theorem findById_id {store : Store} {pid : Nat} {p : Product}
    (h : findById store pid = some p) : p.id = pid := by
  have := List.find?_some h
  simpa using this

theorem mem_of_findById {store : Store} {pid : Nat} {p : Product}
    (h : findById store pid = some p) : p ∈ store :=
  List.mem_of_find?_eq_some h

theorem findById_saveToStore {store : Store} {pid : Nat} {p : Product}
    (h : findById store pid = some p) (q : Product) (hq : q.id = p.id) :
    findById (saveToStore store q) pid = some q := by
  have hpid : p.id = pid := findById_id h
  induction store with
  | nil => simp [findById] at h
  | cons x xs ih =>
    by_cases hx : x.id = pid
    · rw [findById,
        List.find?_cons_of_pos (p := fun r => r.id == pid) (a := x) xs (by simp [hx])] at h
      have hxp : x = p := by simpa using h
      subst hxp
      unfold findById saveToStore
      rw [List.map_cons, if_pos (show (x.id == q.id) = true by simp [hq])]
      rw [List.find?_cons_of_pos (p := fun r => r.id == pid) (a := q) _ (by simp [hq, hpid])]
    · rw [findById,
        List.find?_cons_of_neg (p := fun r => r.id == pid) (a := x) xs (by simp [hx])] at h
      have ihx := ih h
      unfold findById saveToStore
      rw [List.map_cons, if_neg (show ¬ ((x.id == q.id) = true) by simp [hq, hpid, hx])]
      rw [List.find?_cons_of_neg (p := fun r => r.id == pid) (a := x) _ (by simp [hx])]
      exact ihx

theorem validateProduct_eq_none_iff (p : Product) :
    validateProduct p = none ↔
      p.name ≠ "" ∧ 0 ≤ p.stock_quantity ∧ p.stock_quantity.isInt = true ∧
      0 ≤ p.low_stock_threshold ∧ p.low_stock_threshold.isInt = true := by
  unfold validateProduct
  split_ifs with h1 h2 h3 h4 h5 <;>
    simp_all [not_lt, Bool.not_eq_false]

theorem storeNonneg_saveToStore {store : Store} {q : Product}
    (h : storeNonneg store) (hq : 0 ≤ q.stock_quantity) :
    storeNonneg (saveToStore store q) := by
  intro p hp
  rcases List.mem_map.mp hp with ⟨x, hx, hxe⟩
  split at hxe
  · exact hxe ▸ hq
  · exact hxe ▸ h x hx

theorem validate_stock_update {p : Product} (x : ℚ)
    (hvalid : validateProduct p = none) (hx0 : 0 ≤ x) (hxint : x.isInt = true) :
    validateProduct { p with stock_quantity := x } = none := by
  rw [validateProduct_eq_none_iff] at hvalid ⊢
  obtain ⟨h1, _, _, h4, h5⟩ := hvalid
  exact ⟨h1, hx0, hxint, h4, h5⟩

theorem increaseStock_eq {store : Store} {pid : Nat} {p : Product} {a : ℚ}
    (hfind : findById store pid = some p) (hpos : 0 < a) (hint : a.isInt = true)
    (hvalid : validateProduct p = none) :
    increaseStock store (.valid pid) (some a) =
      (.ok 200 { p with stock_quantity := p.stock_quantity + a },
       saveToStore store { p with stock_quantity := p.stock_quantity + a }) := by
  have hstk : 0 ≤ p.stock_quantity :=
    ((validateProduct_eq_none_iff p).mp hvalid).2.1
  have hint' : p.stock_quantity.isInt = true :=
    ((validateProduct_eq_none_iff p).mp hvalid).2.2.1
  have hv1 : validateProduct { p with stock_quantity := p.stock_quantity + a } = none :=
    validate_stock_update _ hvalid (add_nonneg hstk hpos.le) (isInt_add_of hint' hint)
  simp [increaseStock, hfind, hv1, hpos.not_le, hint]

theorem decreaseStock_insufficient {store : Store} {pid : Nat} {p : Product} {a : ℚ}
    (hfind : findById store pid = some p) (hpos : 0 < a) (hint : a.isInt = true)
    (hlt : p.stock_quantity - a < 0) :
    decreaseStock store (.valid pid) (some a) = (.err 400 "Insufficient stock", store) := by
  simp [decreaseStock, hfind, hpos.not_le, hint, hlt]

theorem decreaseStock_success {store : Store} {pid : Nat} {p : Product} {a : ℚ}
    (hfind : findById store pid = some p) (hpos : 0 < a) (hint : a.isInt = true)
    (hvalid : validateProduct p = none) (hle : a ≤ p.stock_quantity) :
    decreaseStock store (.valid pid) (some a) =
      (.ok 200 { p with stock_quantity := p.stock_quantity - a },
       saveToStore store { p with stock_quantity := p.stock_quantity - a }) := by
  have hint' : p.stock_quantity.isInt = true :=
    ((validateProduct_eq_none_iff p).mp hvalid).2.2.1
  have hge : ¬ (p.stock_quantity - a < 0) := not_lt.mpr (sub_nonneg.mpr hle)
  have hv1 : validateProduct { p with stock_quantity := p.stock_quantity - a } = none :=
    validate_stock_update _ hvalid (sub_nonneg.mpr hle) (isInt_sub_of hint' hint)
  simp [decreaseStock, hfind, hv1, hpos.not_le, hint, hge]

theorem validateUpdateFields_eq_none_iff (b : UpdateBody) :
    validateUpdateFields b = none ↔
      b.name.any (fun n => jsTrim n == "") = false ∧
      b.stock_quantity.any (fun q => decide (q < 0)) = false ∧
      b.stock_quantity.any (fun q => q.isInt = false) = false ∧
      b.low_stock_threshold.any (fun q => decide (q < 0)) = false ∧
      b.low_stock_threshold.any (fun q => q.isInt = false) = false := by
  unfold validateUpdateFields
  split_ifs with h1 h2 h3 h4 h5 <;> simp_all

theorem updateProduct_success {store : Store} {pid : Nat} {p : Product} {b : UpdateBody}
    (hfind : findById store pid = some p) (hv : validateUpdateFields b = none) :
    updateProduct store (.valid pid) b =
      (.ok 200 (applyUpdate p b), saveToStore store (applyUpdate p b)) := by
  have hc := (validateUpdateFields_eq_none_iff b).mp hv
  simp [updateProduct, hc.2.1, hc.2.2.2.1, hv, hfind]

/-! ### Claim theorems -/

/-- C1: For a stored product with stock `S` and a validated positive integer
amount `a`, `decreaseStock` fails with 400 `"Insufficient stock"` and leaves
the store (hence the stored quantity) untouched when `S - a < 0`; when
`a ≤ S` it succeeds and the stored quantity becomes exactly `S - a`
(depletion exactly to zero, `a = S`, included). -/
theorem decrease_floor_or_exact (store : Store) (pid : Nat) (p : Product) (a : ℚ)
    (hfind : findById store pid = some p) (hpos : 0 < a) (hint : a.isInt = true)
    (hvalid : validateProduct p = none) :
    (p.stock_quantity - a < 0 →
      decreaseStock store (.valid pid) (some a) = (.err 400 "Insufficient stock", store) ∧
      findById (decreaseStock store (.valid pid) (some a)).2 pid = some p) ∧
    (a ≤ p.stock_quantity →
      decreaseStock store (.valid pid) (some a) =
        (.ok 200 { p with stock_quantity := p.stock_quantity - a },
         saveToStore store { p with stock_quantity := p.stock_quantity - a }) ∧
      findById (decreaseStock store (.valid pid) (some a)).2 pid =
        some { p with stock_quantity := p.stock_quantity - a }) := by
  constructor
  · intro hlt
    have he := decreaseStock_insufficient hfind hpos hint hlt
    exact ⟨he, by rw [he]; exact hfind⟩
  · intro hle
    have he := decreaseStock_success hfind hpos hint hvalid hle
    refine ⟨he, ?_⟩
    rw [he]
    exact findById_saveToStore hfind _ rfl

/-- Witness for C1 at the spec's own scenario: stock 50, decrease by 60. -/
theorem decrease_floor_or_exact_witness :
    findById [⟨1, "Widget", none, 50, 10⟩] 1 = some ⟨1, "Widget", none, 50, 10⟩ ∧
    (0:ℚ) < 60 ∧ ((60:ℚ)).isInt = true ∧
    validateProduct ⟨1, "Widget", none, 50, 10⟩ = none ∧
    (Product.mk 1 "Widget" none 50 10).stock_quantity - 60 < 0 ∧
    decreaseStock [⟨1, "Widget", none, 50, 10⟩] (.valid 1) (some 60) =
      (.err 400 "Insufficient stock", [⟨1, "Widget", none, 50, 10⟩]) :=
  ⟨rfl, by decide, by decide, by decide, by norm_num,
    ((decrease_floor_or_exact [⟨1, "Widget", none, 50, 10⟩] 1 ⟨1, "Widget", none, 50, 10⟩ 60
      rfl (by decide) (by decide) (by decide)).1 (by norm_num)).1⟩

/-- C6: For a stored (schema-valid) product and a validated positive integer
amount, `increaseStock` always succeeds and the stored quantity becomes the
prior quantity plus the amount. -/
theorem increase_success (store : Store) (pid : Nat) (p : Product) (a : ℚ)
    (hfind : findById store pid = some p) (hpos : 0 < a) (hint : a.isInt = true)
    (hvalid : validateProduct p = none) :
    increaseStock store (.valid pid) (some a) =
      (.ok 200 { p with stock_quantity := p.stock_quantity + a },
       saveToStore store { p with stock_quantity := p.stock_quantity + a }) ∧
    findById (increaseStock store (.valid pid) (some a)).2 pid =
      some { p with stock_quantity := p.stock_quantity + a } := by
  have he := increaseStock_eq hfind hpos hint hvalid
  refine ⟨he, ?_⟩
  rw [he]
  exact findById_saveToStore hfind _ rfl

/-- Witness for C6 at the spec's scenario: stock 50, increase by 25 gives 75. -/
theorem increase_success_witness :
    findById [⟨1, "Widget", none, 50, 10⟩] 1 = some ⟨1, "Widget", none, 50, 10⟩ ∧
    (0:ℚ) < 25 ∧ ((25:ℚ)).isInt = true ∧
    validateProduct ⟨1, "Widget", none, 50, 10⟩ = none ∧
    increaseStock [⟨1, "Widget", none, 50, 10⟩] (.valid 1) (some 25) =
      (.ok 200 ⟨1, "Widget", none, 75, 10⟩, [⟨1, "Widget", none, 75, 10⟩]) := by
  have h := (increase_success [⟨1, "Widget", none, 50, 10⟩] 1 ⟨1, "Widget", none, 50, 10⟩ 25
    rfl (by decide) (by decide) (by decide)).1
  refine ⟨rfl, by decide, by decide, by decide, ?_⟩
  rw [h]
  norm_num [saveToStore]

/-- C3: The low-stock query returns status 200 (never an error, also on an
empty result) and its result holds exactly the stored products whose
`stock_quantity` is strictly below their `low_stock_threshold`; a product
exactly at its threshold is excluded. -/
theorem low_stock_exact (store : Store) (p : Product) :
    (getLowStockProducts store).1 = 200 ∧
    (p ∈ (getLowStockProducts store).2 ↔
      p ∈ store ∧ p.stock_quantity < p.low_stock_threshold) ∧
    (p.stock_quantity = p.low_stock_threshold → p ∉ (getLowStockProducts store).2) := by
  refine ⟨rfl, ?_, ?_⟩
  · simp [getLowStockProducts, List.mem_filter, and_comm]
  · intro heq hmem
    have := ((List.mem_filter.mp hmem).2)
    rw [heq] at this
    simp at this

/-- Witness for C3 at the spec's scenario shape: stock 5 under threshold 10
is returned, a product exactly at its threshold is not. -/
theorem low_stock_exact_witness :
    (Product.mk 3 "Gear" none 10 10).stock_quantity =
      (Product.mk 3 "Gear" none 10 10).low_stock_threshold ∧
    Product.mk 3 "Gear" none 10 10 ∉
      (getLowStockProducts [⟨1, "Widget", none, 5, 10⟩, ⟨3, "Gear", none, 10, 10⟩]).2 ∧
    Product.mk 1 "Widget" none 5 10 ∈
      (getLowStockProducts [⟨1, "Widget", none, 5, 10⟩, ⟨3, "Gear", none, 10, 10⟩]).2 :=
  ⟨rfl,
    (low_stock_exact [⟨1, "Widget", none, 5, 10⟩, ⟨3, "Gear", none, 10, 10⟩]
      ⟨3, "Gear", none, 10, 10⟩).2.2 rfl,
    (low_stock_exact [⟨1, "Widget", none, 5, 10⟩, ⟨3, "Gear", none, 10, 10⟩]
      ⟨1, "Widget", none, 5, 10⟩).2.1.mpr ⟨by decide, by decide⟩⟩

/-- C4: For both stock adjustments and any store and id, an absent, zero or
negative amount yields 400 `"Amount must be a positive number"`, and a
(positive) non-integer amount yields 400 `"Amount must be an integer"`; the
store is untouched either way. -/
theorem amount_validation (store : Store) (id : IdInput) (a : ℚ) :
    increaseStock store id none = (.err 400 "Amount must be a positive number", store) ∧
    decreaseStock store id none = (.err 400 "Amount must be a positive number", store) ∧
    (a ≤ 0 →
      increaseStock store id (some a) = (.err 400 "Amount must be a positive number", store) ∧
      decreaseStock store id (some a) = (.err 400 "Amount must be a positive number", store)) ∧
    (0 < a → a.isInt = false →
      increaseStock store id (some a) = (.err 400 "Amount must be an integer", store) ∧
      decreaseStock store id (some a) = (.err 400 "Amount must be an integer", store)) := by
  refine ⟨rfl, rfl, fun hle => ⟨?_, ?_⟩, fun hpos hint => ⟨?_, ?_⟩⟩
  · simp [increaseStock, hle]
  · simp [decreaseStock, hle]
  · simp [increaseStock, not_le.mpr hpos, hint]
  · simp [decreaseStock, not_le.mpr hpos, hint]

/-- Witness for C4: zero amount rejected for a product-less store; one half
is rejected as non-integer. -/
theorem amount_validation_witness :
    ((-3:ℚ)) ≤ 0 ∧ (0:ℚ) < oneHalf ∧ oneHalf.isInt = false ∧
    increaseStock [] .malformed (some oneHalf) = (.err 400 "Amount must be an integer", []) ∧
    decreaseStock [] .malformed (some (-3)) =
      (.err 400 "Amount must be a positive number", []) :=
  ⟨by decide, by decide, by decide,
    ((amount_validation [] .malformed oneHalf).2.2.2 (by decide) (by decide)).1,
    ((amount_validation [] .malformed (-3)).2.2.1 (by decide)).2⟩

/-- C10: For an invalid amount the two stock adjustments answer with the
corresponding `ValidationError` before any lookup: the result is the same
for every store and every id (malformed ones included) and the returned
store is the input store, so nothing is read or written. -/
theorem validation_precedes_lookup (store : Store) (id : IdInput) (a : ℚ)
    (hbad : a ≤ 0 ∨ a.isInt = false) :
    (increaseStock store id (some a)).2 = store ∧
    (decreaseStock store id (some a)).2 = store ∧
    (increaseStock store id (some a)).1 = (increaseStock [] .malformed (some a)).1 ∧
    (decreaseStock store id (some a)).1 = (decreaseStock [] .malformed (some a)).1 ∧
    (increaseStock store id (some a)).1 =
      .err 400 (if a ≤ 0 then "Amount must be a positive number"
                else "Amount must be an integer") ∧
    (decreaseStock store id (some a)).1 =
      .err 400 (if a ≤ 0 then "Amount must be a positive number"
                else "Amount must be an integer") ∧
    increaseStock store id none = (.err 400 "Amount must be a positive number", store) ∧
    decreaseStock store id none = (.err 400 "Amount must be a positive number", store) := by
  by_cases hle : a ≤ 0
  · simp [increaseStock, decreaseStock, hle]
  · rcases hbad with h | h
    · exact absurd h hle
    · simp [increaseStock, decreaseStock, hle, h]

/-- Witness for C10: non-integer amount, well-formed unknown id, non-empty
store: the validation error wins and the store is unchanged. -/
theorem validation_precedes_lookup_witness :
    (oneHalf ≤ 0 ∨ oneHalf.isInt = false) ∧
    (increaseStock [⟨1, "Widget", none, 50, 10⟩] (.valid 999) (some oneHalf)).2 =
      [⟨1, "Widget", none, 50, 10⟩] ∧
    (decreaseStock [⟨1, "Widget", none, 50, 10⟩] (.valid 999) (some oneHalf)).1 =
      (decreaseStock [] .malformed (some oneHalf)).1 :=
  ⟨Or.inr (by decide),
    (validation_precedes_lookup [⟨1, "Widget", none, 50, 10⟩] (.valid 999) oneHalf
      (Or.inr (by decide))).1,
    (validation_precedes_lookup [⟨1, "Widget", none, 50, 10⟩] (.valid 999) oneHalf
      (Or.inr (by decide))).2.2.2.1⟩

/-- C5: On a stored schema-valid product, increasing by a validated positive
integer amount and then decreasing by the same amount restores the product,
its `stock_quantity` included. -/
theorem increase_decrease_roundtrip (store : Store) (pid : Nat) (p : Product) (a : ℚ)
    (hfind : findById store pid = some p) (hpos : 0 < a) (hint : a.isInt = true)
    (hvalid : validateProduct p = none) :
    findById (decreaseStock (increaseStock store (.valid pid) (some a)).2
      (.valid pid) (some a)).2 pid = some p := by
  have hiff := (validateProduct_eq_none_iff p).mp hvalid
  have he1 := increaseStock_eq hfind hpos hint hvalid
  have hv1 : validateProduct { p with stock_quantity := p.stock_quantity + a } = none :=
    validate_stock_update _ hvalid (add_nonneg hiff.2.1 hpos.le)
      (isInt_add_of hiff.2.2.1 hint)
  have hfind1 : findById (increaseStock store (.valid pid) (some a)).2 pid =
      some { p with stock_quantity := p.stock_quantity + a } := by
    rw [he1]
    exact findById_saveToStore hfind _ rfl
  have hle : a ≤ ({ p with stock_quantity := p.stock_quantity + a } : Product).stock_quantity := by
    have := hiff.2.1
    show a ≤ p.stock_quantity + a
    linarith
  have he2 := decreaseStock_success hfind1 hpos hint hv1 hle
  rw [he2]
  show findById (saveToStore (increaseStock store (.valid pid) (some a)).2
    { p with stock_quantity := p.stock_quantity + a - a }) pid = some p
  have hpa : p.stock_quantity + a - a = p.stock_quantity := add_sub_cancel_right _ _
  rw [hpa]
  exact findById_saveToStore hfind1 _ rfl

/-- Witness for C5: stock 50, increase then decrease by 25 restores the
product exactly. -/
theorem increase_decrease_roundtrip_witness :
    findById [⟨1, "Widget", none, 50, 10⟩] 1 = some ⟨1, "Widget", none, 50, 10⟩ ∧
    (0:ℚ) < 25 ∧ ((25:ℚ)).isInt = true ∧
    validateProduct ⟨1, "Widget", none, 50, 10⟩ = none ∧
    findById (decreaseStock (increaseStock [⟨1, "Widget", none, 50, 10⟩]
        (.valid 1) (some 25)).2 (.valid 1) (some 25)).2 1 =
      some ⟨1, "Widget", none, 50, 10⟩ :=
  ⟨rfl, by decide, by decide, by decide,
    increase_decrease_roundtrip [⟨1, "Widget", none, 50, 10⟩] 1 ⟨1, "Widget", none, 50, 10⟩ 25
      rfl (by decide) (by decide) (by decide)⟩

/-- C2: When every stored product has non-negative stock, each of the four
mutating handlers preserves that invariant on every input — a failed
operation leaves the store untouched and a successful one never persists a
negative `stock_quantity`. -/
theorem stock_nonneg_invariant (store : Store) (h : storeNonneg store) :
    (∀ body newId, storeNonneg (createProduct store body newId).2) ∧
    (∀ id b, storeNonneg (updateProduct store id b).2) ∧
    (∀ id amount, storeNonneg (increaseStock store id amount).2) ∧
    (∀ id amount, storeNonneg (decreaseStock store id amount).2) := by
  refine ⟨?_, ?_, ?_, ?_⟩
  · intro body newId
    simp only [createProduct]
    split
    · exact h
    · split
      · exact h
      · next hv =>
        intro q hq
        rcases List.mem_append.mp hq with hq | hq
        · exact h q hq
        · have hq' := List.mem_singleton.mp hq
          subst hq'
          exact ((validateProduct_eq_none_iff _).mp hv).2.1
  · intro id b
    simp only [updateProduct]
    split
    · exact h
    · next hneg1 =>
      split
      · exact h
      · split
        · exact h
        · split
          · exact h
          · split
            · exact h
            · next p hp =>
              refine storeNonneg_saveToStore h ?_
              show 0 ≤ b.stock_quantity.getD p.stock_quantity
              cases hbq : b.stock_quantity with
              | none => exact h p (mem_of_findById hp)
              | some q =>
                rw [hbq] at hneg1
                simp at hneg1
                simpa using hneg1
  · intro id amount
    cases amount with
    | none => exact h
    | some a =>
      cases id with
      | malformed =>
        simp only [increaseStock]
        split
        · exact h
        · split
          · exact h
          · exact h
      | valid pid =>
        simp only [increaseStock]
        split
        · exact h
        · split
          · exact h
          · split
            · exact h
            · split
              · exact h
              · next hv1 =>
                exact storeNonneg_saveToStore h
                  ((validateProduct_eq_none_iff _).mp hv1).2.1
  · intro id amount
    cases amount with
    | none => exact h
    | some a =>
      cases id with
      | malformed =>
        simp only [decreaseStock]
        split
        · exact h
        · split
          · exact h
          · exact h
      | valid pid =>
        simp only [decreaseStock]
        split
        · exact h
        · split
          · exact h
          · split
            · exact h
            · split
              · exact h
              · split
                · exact h
                · next hv1 =>
                  exact storeNonneg_saveToStore h
                    ((validateProduct_eq_none_iff _).mp hv1).2.1

/-- Witness for C2: a concrete non-negative store stays non-negative under a
decrease. -/
theorem stock_nonneg_invariant_witness :
    storeNonneg [⟨1, "Widget", none, 50, 10⟩] ∧
    storeNonneg (decreaseStock [⟨1, "Widget", none, 50, 10⟩] (.valid 1) (some 20)).2 := by
  have hnn : storeNonneg [⟨1, "Widget", none, 50, 10⟩] := by
    intro p hp
    have := List.mem_singleton.mp hp
    subst this
    decide
  exact ⟨hnn,
    (stock_nonneg_invariant [⟨1, "Widget", none, 50, 10⟩] hnn).2.2.2 (.valid 1) (some 20)⟩

/-- C7: The general update accepts any non-negative integer `stock_quantity`,
with no floor check against the current value (so lowering the stock is
allowed), while a supplied negative `stock_quantity` or negative
`low_stock_threshold` is rejected with the corresponding 400 validation
error and no write. -/
theorem update_no_floor (store : Store) (pid : Nat) (p : Product) (q : ℚ)
    (hfind : findById store pid = some p) (hq0 : 0 ≤ q) (hqint : q.isInt = true) :
    updateProduct store (.valid pid) ⟨none, none, some q, none⟩ =
      (.ok 200 { p with stock_quantity := q },
       saveToStore store { p with stock_quantity := q }) ∧
    (∀ id (b : UpdateBody) x, b.stock_quantity = some x → x < 0 →
      updateProduct store id b = (.err 400 "Stock quantity cannot be negative", store)) ∧
    (∀ id (b : UpdateBody) x, b.low_stock_threshold = some x → x < 0 →
      b.stock_quantity.any (fun y => decide (y < 0)) = false →
      updateProduct store id b =
        (.err 400 "Low stock threshold cannot be negative", store)) := by
  refine ⟨?_, ?_, ?_⟩
  · have hv : validateUpdateFields ⟨none, none, some q, none⟩ = none := by
      simp [validateUpdateFields, not_lt.mpr hq0, hqint]
    exact updateProduct_success hfind hv
  · intro id b x hbx hlt
    simp [updateProduct, hbx, hlt]
  · intro id b x hbx hlt hs
    simp [updateProduct, hbx, hlt, hs]

/-- Witness for C7: stock 50 updated straight down to 5 succeeds; a negative
value is rejected. -/
theorem update_no_floor_witness :
    findById [⟨1, "Widget", none, 50, 10⟩] 1 = some ⟨1, "Widget", none, 50, 10⟩ ∧
    (0:ℚ) ≤ 5 ∧ ((5:ℚ)).isInt = true ∧
    updateProduct [⟨1, "Widget", none, 50, 10⟩] (.valid 1) ⟨none, none, some 5, none⟩ =
      (.ok 200 ⟨1, "Widget", none, 5, 10⟩, [⟨1, "Widget", none, 5, 10⟩]) ∧
    updateProduct [⟨1, "Widget", none, 50, 10⟩] (.valid 1) ⟨none, none, some (-1), none⟩ =
      (.err 400 "Stock quantity cannot be negative", [⟨1, "Widget", none, 50, 10⟩]) := by
  have h := update_no_floor [⟨1, "Widget", none, 50, 10⟩] 1 ⟨1, "Widget", none, 50, 10⟩ 5
    rfl (by decide) (by decide)
  refine ⟨rfl, by decide, by decide, h.1, ?_⟩
  exact h.2.1 (.valid 1) ⟨none, none, some (-1), none⟩ (-1) rfl (by decide)

/-- C8: A successful general update changes exactly the supplied fields:
the result is the field-replacement of the stored product, every
unsupplied field keeps its prior value, the id is unchanged, and the
updated product is what is returned and stored. -/
theorem update_frame (store : Store) (pid : Nat) (p : Product) (b : UpdateBody)
    (hfind : findById store pid = some p) (hv : validateUpdateFields b = none) :
    updateProduct store (.valid pid) b =
      (.ok 200 (applyUpdate p b), saveToStore store (applyUpdate p b)) ∧
    findById (updateProduct store (.valid pid) b).2 pid = some (applyUpdate p b) ∧
    (applyUpdate p b).id = p.id ∧
    (b.name = none → (applyUpdate p b).name = p.name) ∧
    (b.description = none → (applyUpdate p b).description = p.description) ∧
    (b.stock_quantity = none → (applyUpdate p b).stock_quantity = p.stock_quantity) ∧
    (b.low_stock_threshold = none →
      (applyUpdate p b).low_stock_threshold = p.low_stock_threshold) ∧
    (∀ x, b.stock_quantity = some x → (applyUpdate p b).stock_quantity = x) := by
  have he := updateProduct_success hfind hv
  refine ⟨he, ?_, rfl, ?_, ?_, ?_, ?_, ?_⟩
  · rw [he]
    exact findById_saveToStore hfind _ rfl
  · intro hn
    simp [applyUpdate, hn]
  · intro hd
    simp [applyUpdate, hd]
  · intro hs
    simp [applyUpdate, hs]
  · intro ht
    simp [applyUpdate, ht]
  · intro x hx
    simp [applyUpdate, hx]

/-- Witness for C8: updating name and stock leaves description and
threshold as they were. -/
theorem update_frame_witness :
    findById [⟨1, "Widget", some "metal", 50, 10⟩] 1 =
      some ⟨1, "Widget", some "metal", 50, 10⟩ ∧
    validateUpdateFields ⟨some "NewName", none, some 75, none⟩ = none ∧
    updateProduct [⟨1, "Widget", some "metal", 50, 10⟩] (.valid 1)
        ⟨some "NewName", none, some 75, none⟩ =
      (.ok 200 ⟨1, "NewName", some "metal", 75, 10⟩,
       [⟨1, "NewName", some "metal", 75, 10⟩]) := by
  have h := update_frame [⟨1, "Widget", some "metal", 50, 10⟩] 1
    ⟨1, "Widget", some "metal", 50, 10⟩ ⟨some "NewName", none, some 75, none⟩
    rfl (by decide)
  exact ⟨rfl, by decide, h.1⟩

/-- C9: A creation with a non-empty name and no other fields succeeds with
the schema defaults — stock 0, threshold 10, description absent — and every
successful creation yields non-negative stock and threshold. -/
theorem create_defaults (store : Store) (newId : Nat) (n : String)
    (hn : nameFalsy (some n) = false) (hnt : jsTrim n ≠ "") :
    createProduct store ⟨some n, none, none, none⟩ newId =
      (.ok 201 ⟨newId, jsTrim n, none, 0, 10⟩,
       store ++ [⟨newId, jsTrim n, none, 0, 10⟩]) ∧
    (∀ body p, (createProduct store body newId).1 = .ok 201 p →
      0 ≤ p.stock_quantity ∧ 0 ≤ p.low_stock_threshold) := by
  constructor
  · have hv : validateProduct ⟨newId, jsTrim n, none, 0, 10⟩ = none := by
      rw [validateProduct_eq_none_iff]
      exact ⟨hnt, by norm_num, rfl, by norm_num, rfl⟩
    simp [createProduct, hn, hv]
  · intro body p hp
    simp only [createProduct] at hp
    split at hp
    · simp at hp
    · split at hp
      · simp at hp
      · next hv' =>
        have hc := (validateProduct_eq_none_iff _).mp hv'
        have hp' := hp
        injection hp' with h1 h2
        subst h2
        exact ⟨hc.2.1, hc.2.2.2.1⟩

/-- Witness for C9: the spec's create scenario with only a name supplied. -/
theorem create_defaults_witness :
    nameFalsy (some "Test Product") = false ∧ jsTrim "Test Product" ≠ "" ∧
    createProduct [] ⟨some "Test Product", none, none, none⟩ 7 =
      (.ok 201 ⟨7, "Test Product", none, 0, 10⟩,
       [⟨7, "Test Product", none, 0, 10⟩]) := by
  have h := create_defaults [] 7 "Test Product" (by decide) (by decide)
  refine ⟨by decide, by decide, ?_⟩
  rw [h.1]
  decide

end Inventory
